import Mathlib

/-!
Verification of the ServiceNow support-ticket chatbot's decision logic:
duplicate detection, priority classification, intent routing, idempotent
ticket creation, and the React frontend's request construction and
message-input guards.  Backend agents are embedded as Lean functions; the
frontend handlers are translated from
`frontend/src/api.ts`, `frontend/src/components/MessageInput.tsx` and the
`MessageInput` component shipped alongside `AgentSelector.js`.
-/

namespace Chatbot

/-- Ticket lifecycle states of a `TicketRecord`
(spec section 3: state is one of New, InProgress, OnHold, Resolved, Closed,
Cancelled). -/
inductive TicketState
  | New
  | InProgress
  | OnHold
  | Resolved
  | Closed
  | Cancelled
deriving DecidableEq

/-- The active subset of ticket states, the only states eligible for
duplicate matching (glossary: "Active ticket state"). -/
def TicketState.isActive : TicketState → Bool
  | .New => true
  | .InProgress => true
  | .OnHold => true
  | .Resolved => false
  | .Closed => false
  | .Cancelled => false

/-- A ticket record as owned by the external ticket store (spec section 3). -/
structure TicketRecord where
  id : Nat
  number : String
  shortDescription : String
  state : TicketState
  category : String
  priority : Nat
  createdAt : Nat
  reporterId : Nat
deriving DecidableEq

/-- A new issue report submitted by a user (spec section 3). -/
structure IssueReport where
  reporterId : Nat
  text : String
  submittedAt : Nat
  categoryHint : Option String
deriving DecidableEq

/-- Splits a character stream into whitespace-separated words, accumulating
the current word in reverse in `acc`. -/
def splitWords : List Char → List Char → List String
  | [], acc => if acc.isEmpty then [] else [String.mk acc.reverse]
  | ch :: cs, acc =>
    if ch = ' ' then
      (if acc.isEmpty then [] else [String.mk acc.reverse]) ++ splitWords cs []
    else
      splitWords cs (ch :: acc)

/-- Lower-cased word list of a text, the unit of token-overlap similarity. -/
def tokens (s : String) : List String :=
  splitWords (s.data.map Char.toLower) []

/-- Modelled from the spec: normalized token-overlap text similarity in
[0,1], represented in hundredths (the similarity-scoring internals of the
backend `duplicate_check_agent` are not part of this repository snapshot;
spec section 4.2 "normalized text similarity (token/semantic overlap,
0-1)"). -/
def textSimilarityH (a b : String) : Nat :=
  let ta := tokens a
  let tb := tokens b
  let inter := (ta.filter (fun w => tb.contains w)).length
  let union := ta.length + tb.length - inter
  if union = 0 then 0 else inter * 100 / union

/-- Modelled from the spec: baseline priority per category for the
versioned rule table of the PriorityClassifier (spec section 4.3; the
backend `priority_sla_agent` is not part of this repository snapshot).
Baselines follow the observed scenario report: Network and Hardware 4,
Software, Access and Printer 5, Email 3. -/
def baselinePriority (cat : String) : Nat :=
  if cat = "Network" then 4
  else if cat = "Hardware" then 4
  else if cat = "Software" then 5
  else if cat = "Access" then 5
  else if cat = "Email" then 3
  else if cat = "Printer" then 5
  else if cat = "Security" then 2
  else 3

/-- One triggered escalation: raises priority by exactly one level (lower
ordinal = higher priority), floored at 1 (spec section 4.3). -/
def escalate (p : Nat) : Nat := max 1 (p - 1)

/-- Modelled from the spec: the PriorityClassifier applies one `escalate`
step per triggered escalation marker on top of the category baseline
(spec section 4.3). -/
def classifyPriority (cat : String) : Nat → Nat
  | 0 => baselinePriority cat
  | n + 1 => escalate (classifyPriority cat n)

/-- The factors combined by the duplicate scorer for one candidate
(spec section 4.2). -/
structure SimilarityFactors where
  textSimH : Nat
  categoryMatch : Bool
  sameReporter : Bool
  withinWindow : Bool
  priorityAligned : Bool
deriving DecidableEq

/-- Recency window for duplicate matching, in days (spec section 4.2:
"e.g. 30 days"). -/
def recencyWindowDays : Nat := 30

/-- Priority a report is expected to receive, used for the
priority-alignment factor: the baseline of its category hint, default 3. -/
def expectedPriority : Option String → Nat
  | some c => baselinePriority c
  | none => 3

/-- Modelled from the spec: the factors of one candidate ticket against a
report (spec section 4.2). -/
def factorsOf (report : IssueReport) (t : TicketRecord) : SimilarityFactors :=
  { textSimH := textSimilarityH report.text t.shortDescription
    categoryMatch := report.categoryHint == some t.category
    sameReporter := report.reporterId == t.reporterId
    withinWindow := decide (report.submittedAt - t.createdAt ≤ recencyWindowDays)
    priorityAligned := t.priority == expectedPriority report.categoryHint }

/-- Modelled from the spec: weighted combination of the factors, in
hundredths of a score point: half weight on text similarity, bonuses of
0.20 for category match, 0.15 for same reporter, 0.10 for priority
alignment, and a 0.20 recency decay for tickets older than the window
(spec section 4.2). -/
def rawScoreH (f : SimilarityFactors) : Int :=
  (f.textSimH : Int) / 2
    + (if f.categoryMatch then 20 else 0)
    + (if f.sameReporter then 15 else 0)
    + (if f.priorityAligned then 10 else 0)
    - (if f.withinWindow then 0 else 20)

/-- Clips a raw score to [0,100] hundredths, i.e. to [0,1]
(spec section 4.2: "Scores are clipped to [0,1]"). -/
def clipH (x : Int) : Nat := (max 0 (min 100 x)).toNat

/-- Similarity score of a candidate against a report, in hundredths. -/
def similarityScoreH (report : IssueReport) (t : TicketRecord) : Nat :=
  clipH (rawScoreH (factorsOf report t))

/-- The similarity score as a rational in [0,1]
(spec section 3: "numeric score in [0,1]"). -/
def scoreQ (report : IssueReport) (t : TicketRecord) : ℚ :=
  (similarityScoreH report t : ℚ) / 100

/-- Duplicate threshold in hundredths (spec section 4.2: default 0.70). -/
def duplicateThresholdH : Nat := 70

/-- Duplicate threshold as a rational, 0.70. -/
def duplicateThreshold : ℚ := 7 / 10

/-- A ticket is a duplicate candidate for a report when its similarity
score meets or exceeds the threshold (glossary: "Duplicate candidate"). -/
def IsDuplicateCandidate (report : IssueReport) (t : TicketRecord) : Prop :=
  duplicateThreshold ≤ scoreQ report t

/-- A candidate ticket paired with its similarity score in hundredths
(spec section 3: SimilarityScore). -/
structure ScoredCandidate where
  ticket : TicketRecord
  score : Nat
deriving DecidableEq

/-- A scored candidate's similarity score as a rational in [0,1]. -/
def ScoredCandidate.scoreQ (c : ScoredCandidate) : ℚ := (c.score : ℚ) / 100

/-- Ranking order on scored candidates: descending by score, ties broken
by recency, newer first (spec section 4.2). -/
def rankRel (a b : ScoredCandidate) : Prop :=
  b.score < a.score ∨ (a.score = b.score ∧ b.ticket.createdAt ≤ a.ticket.createdAt)

instance : DecidableRel rankRel := fun a b =>
  inferInstanceAs
    (Decidable
      (b.score < a.score ∨ (a.score = b.score ∧ b.ticket.createdAt ≤ a.ticket.createdAt)))

instance : IsTotal ScoredCandidate rankRel := by
  constructor
  intro a b
  unfold rankRel
  omega

instance : IsTrans ScoredCandidate rankRel := by
  constructor
  intro a b c hab hbc
  unfold rankRel at hab hbc ⊢
  omega

/-- The ranking order expressed on the rational-valued scores. -/
def rankRelQ (a b : ScoredCandidate) : Prop :=
  b.scoreQ < a.scoreQ ∨ (a.scoreQ = b.scoreQ ∧ b.ticket.createdAt ≤ a.ticket.createdAt)

/-- Modelled from the spec: the ticket-query collaborator, server-side
filtered to active states only (spec sections 4.2 and 6; mirrors the
"Search active tickets (state≠6,7)" step of QUICK_REFERENCE.md). -/
def queryActiveTickets (store : List TicketRecord) : List TicketRecord :=
  store.filter (fun t => t.state.isActive)

/-- Modelled from the spec: the DuplicateDetector. Scores every supplied
active ticket, keeps those at or above the threshold, ranks them
descending by score with ties broken by recency, and surfaces at most the
top 3 (spec section 4.2). -/
def detectDuplicates (report : IssueReport) (activeTickets : List TicketRecord) :
    List ScoredCandidate :=
  (List.insertionSort rankRel
      ((activeTickets.map
          (fun t => { ticket := t, score := similarityScoreH report t })).filter
        (fun d => decide (duplicateThresholdH ≤ d.score)))).take 3

/-- The full duplicate-detection pipeline: the query collaborator filters
the store to active tickets, then the detector scores and ranks them. -/
def duplicateDetection (report : IssueReport) (store : List TicketRecord) :
    List ScoredCandidate :=
  detectDuplicates report (queryActiveTickets store)

/-- Conversation intents recognised by the IntentRouter (spec section 4.1). -/
inductive Intent
  | search
  | createTicket
  | duplicateDecision
  | smalltalk
  | unknown
deriving DecidableEq

/-- Conversation session stages (spec section 3). -/
inductive SessionStage
  | Start
  | DuplicateChecked
  | AwaitingDecision
  | Completed
deriving DecidableEq

/-- Modelled from the spec: the keyword/rule first pass of the IntentRouter
(spec section 4.1; the backend `hybrid_chatbot_service` router is not part
of this repository snapshot). Returns `none` when inconclusive. -/
def keywordIntent (text : String) : Option Intent :=
  let ws := tokens text
  if ws.contains "search" then some Intent.search
  else if ws.contains "ticket" then some Intent.createTicket
  else if ws.contains "duplicate" then some Intent.duplicateDecision
  else if ws.contains "hello" then some Intent.smalltalk
  else none

/-- Modelled from the spec: the IntentRouter. Keyword pass first; if
inconclusive, delegates to the external classifier capability; a
classifier failure is caught and mapped to `unknown` with confidence 0
(spec section 4.1). -/
def routeIntent (classify : String → SessionStage → Except String (Intent × ℚ))
    (text : String) (stage : SessionStage) : Intent × ℚ :=
  match keywordIntent text with
  | some i => (i, 1)
  | none =>
    match classify text stage with
    | Except.ok r => r
    | Except.error _ => (Intent.unknown, 0)

/-- Result of the ticket-create collaborator: a fresh record, or a
`ConflictError` carrying the record already stored under the same
idempotency key (spec section 6). -/
inductive CreateResult
  | created (record : TicketRecord)
  | conflict (existing : TicketRecord)
deriving DecidableEq

/-- Looks up the record stored under an idempotency key. -/
def findByKey (recs : List (String × TicketRecord)) (k : String) :
    Option TicketRecord :=
  (recs.find? (fun p => p.1 == k)).map Prod.snd

/-- Modelled from the spec: the ticket-create collaborator with a
conditional create constrained by the idempotency key: an existing record
under the same key yields a `ConflictError` instead of a second record
(spec sections 5 and 6). -/
def storeCreate (recs : List (String × TicketRecord)) (k : String)
    (draft : TicketRecord) : List (String × TicketRecord) × CreateResult :=
  match findByKey recs k with
  | some existing => (recs, CreateResult.conflict existing)
  | none => ((k, draft) :: recs, CreateResult.created draft)

/-- Modelled from the spec: the orchestrator's creation step. A
`ConflictError` from the collaborator is treated as success and the
existing record is returned (spec sections 4.4 and 7). -/
def orchestratorCreate (recs : List (String × TicketRecord)) (k : String)
    (draft : TicketRecord) : List (String × TicketRecord) × TicketRecord :=
  match storeCreate recs k draft with
  | (recs2, CreateResult.created record) => (recs2, record)
  | (recs2, CreateResult.conflict existing) => (recs2, existing)

/-- Number of records stored under an idempotency key. -/
def countKey (recs : List (String × TicketRecord)) (k : String) : Nat :=
  (recs.filter (fun p => p.1 == k)).length

/-- The JSON body of the frontend's ticket-creation request
(`ChatAPI.createTicket` in `frontend/src/api.ts`). -/
structure CreateTicketRequestBody where
  user_id : String
  title : String
  description : String
  priority : String
  category : String
deriving DecidableEq

/-- `ChatAPI.createTicket` from `frontend/src/api.ts`: builds the request
body with the constant priority `"3"` and constant category
`"general"`. -/
def createTicketBody (userId title description : String) :
    CreateTicketRequestBody :=
  { user_id := userId
    title := title
    description := description
    priority := "3"
    category := "general" }

/-- Whitespace test used by the embedded `trim`. -/
def isSpaceChar (ch : Char) : Bool :=
  ch == ' ' || ch == '\t' || ch == '\n' || ch == '\r'

/-- JavaScript `String.prototype.trim`, embedded: strips leading and
trailing whitespace. -/
def strTrim (s : String) : String :=
  String.mk (((s.data.dropWhile isSpaceChar).reverse.dropWhile isSpaceChar).reverse)

/-- `MessageInput.handleSubmit` from
`frontend/src/components/MessageInput.tsx`: invokes `onSendMessage` with
the trimmed message only when the trimmed message is nonempty and input is
not disabled; the returned option is the message sent, `none` when no send
happens. -/
def handleSubmit (message : String) (disabled : Bool) : Option String :=
  if strTrim message != "" && !disabled then some (strTrim message) else none

/-- `MessageInput.handleSend` from the `MessageInput` component shipped
alongside `AgentSelector.js`: sends the trimmed value through
`onSendMessage` when present, else through `onSend` when present, and only
when the trimmed value is nonempty and input is not disabled. -/
def handleSend (value : String) (disabled hasOnSendMessage hasOnSend : Bool) :
    Option String :=
  if strTrim value != "" && !disabled then
    if hasOnSendMessage then some (strTrim value)
    else if hasOnSend then some (strTrim value)
    else none
  else none

/-- `message.duplicates.slice(0, 3)` from `MessageList`'s
`present_duplicates` rendering (shipped alongside `LoadingSpinner.js`):
the frontend renders at most the first three duplicates. -/
def sliceDuplicates {α : Type} (duplicates : List α) : List α :=
  duplicates.take 3

/-- Sample active ticket used by concrete witnesses. -/
def sampleTicket : TicketRecord :=
  { id := 1
    number := "INC0001"
    shortDescription := "laptop wifi authentication failed"
    state := TicketState.New
    category := "Network"
    priority := 4
    createdAt := 100
    reporterId := 7 }

/-- Sample resolved ticket with identical text, used to exercise the
active-state filter in witnesses. -/
def resolvedTicket : TicketRecord :=
  { id := 2
    number := "INC0002"
    shortDescription := "laptop wifi authentication failed"
    state := TicketState.Resolved
    category := "Network"
    priority := 4
    createdAt := 105
    reporterId := 7 }

/-- Sample issue report matching `sampleTicket`. -/
def sampleReport : IssueReport :=
  { reporterId := 7
    text := "laptop wifi authentication failed"
    submittedAt := 110
    categoryHint := some "Network" }

/-- Sample ticket store holding one active and one resolved ticket. -/
def sampleStore : List TicketRecord := [sampleTicket, resolvedTicket]

/-- The scored candidate the detection pipeline produces for
`sampleReport` over `sampleStore`. -/
def sampleCandidate : ScoredCandidate :=
  { ticket := sampleTicket, score := 95 }

/-- Sample ticket differing from the report in category and reporter, used
by the monotonicity witness. -/
def mismatchTicket : TicketRecord :=
  { id := 3
    number := "INC0003"
    shortDescription := "laptop wifi authentication failed"
    state := TicketState.New
    category := "Email"
    priority := 4
    createdAt := 100
    reporterId := 9 }

/-- An external classifier capability that always fails, used by the
intent-router witness. -/
def failingClassifier : String → SessionStage → Except String (Intent × ℚ) :=
  fun _ _ => Except.error "classifier unavailable"

/-- Every clipped score is at most 100 hundredths. -/
theorem clipH_le (x : Int) : clipH x ≤ 100 := by
  unfold clipH
  have h : max 0 (min 100 x) ≤ (100 : Int) := max_le (by norm_num) (min_le_left _ _)
  exact Int.toNat_le.mpr h

/-- Clipping is monotone. -/
theorem clipH_mono {x y : Int} (h : x ≤ y) : clipH x ≤ clipH y :=
  Int.toNat_le_toNat (max_le_max le_rfl (min_le_min le_rfl h))

/-- Monotonicity of the hundredths score transfers to the rational score. -/
theorem scoreQ_mono {report : IssueReport} {t u : TicketRecord}
    (h : similarityScoreH report t ≤ similarityScoreH report u) :
    scoreQ report t ≤ scoreQ report u := by
  unfold scoreQ
  have h2 : (similarityScoreH report t : ℚ) ≤ (similarityScoreH report u : ℚ) := by
    exact_mod_cast h
  linarith

/-- The integer ranking order implies the rational ranking order. -/
theorem rankRel_imp_rankRelQ {a b : ScoredCandidate} (h : rankRel a b) :
    rankRelQ a b := by
  unfold rankRel at h
  unfold rankRelQ ScoredCandidate.scoreQ
  rcases h with h | ⟨h1, h2⟩
  · exact Or.inl ((div_lt_div_iff_of_pos_right (by norm_num : (0:ℚ) < 100)).mpr (by exact_mod_cast h))
  · exact Or.inr ⟨by rw [h1], h2⟩

/-- Claim C1: every candidate produced by the duplicate-detection pipeline
has a ticket state in the active subset New, InProgress, OnHold; the
active-state filter is applied by the ticket-query collaborator before
scoring, so a candidate outside that set never appears in the result. -/
theorem duplicate_candidates_active (report : IssueReport) (store : List TicketRecord) :
    ∀ c ∈ duplicateDetection report store,
      c.ticket.state = TicketState.New ∨ c.ticket.state = TicketState.InProgress ∨
        c.ticket.state = TicketState.OnHold := by
  intro c hc
  unfold duplicateDetection detectDuplicates at hc
  have h1 := List.take_subset 3 _ hc
  rw [List.mem_insertionSort] at h1
  have h2 := (List.mem_filter.mp h1).1
  obtain ⟨t, ht, rfl⟩ := List.mem_map.mp h2
  unfold queryActiveTickets at ht
  have h3 : t.state.isActive = true := (List.mem_filter.mp ht).2
  rcases hst : t.state with _ | _ | _ | _ | _ | _ <;>
    rw [hst] at h3 <;> simp [hst] <;> exact absurd h3 (by decide)

/-- Witness for C1: over `sampleStore` (one active, one resolved ticket)
the pipeline returns the active candidate, whose state is in the active
subset. -/
theorem duplicate_candidates_active_witness :
    sampleCandidate ∈ duplicateDetection sampleReport sampleStore
    ∧ (sampleCandidate.ticket.state = TicketState.New
        ∨ sampleCandidate.ticket.state = TicketState.InProgress
        ∨ sampleCandidate.ticket.state = TicketState.OnHold) :=
  ⟨by decide,
    duplicate_candidates_active sampleReport sampleStore sampleCandidate (by decide)⟩

/-- Claim C3: the duplicate-candidate list contains only candidates with
score at least the 0.70 threshold, is ordered descending by score with
ties broken by recency (newer first), and has length at most 3; the
frontend additionally renders at most the first three duplicates. -/
theorem duplicate_ranking_spec (report : IssueReport) (store : List TicketRecord) :
    (duplicateDetection report store).length ≤ 3
    ∧ List.Pairwise rankRelQ (duplicateDetection report store)
    ∧ (∀ c ∈ duplicateDetection report store, duplicateThreshold ≤ c.scoreQ)
    ∧ ∀ l : List ScoredCandidate, (sliceDuplicates l).length ≤ 3 := by
  refine ⟨?_, ?_, ?_, ?_⟩
  · unfold duplicateDetection detectDuplicates
    exact List.length_take_le 3 _
  · unfold duplicateDetection detectDuplicates
    have hs : List.Pairwise rankRel
        (List.insertionSort rankRel
          (((queryActiveTickets store).map
              (fun t => { ticket := t, score := similarityScoreH report t })).filter
            (fun d => decide (duplicateThresholdH ≤ d.score)))) :=
      List.sorted_insertionSort rankRel _
    exact (hs.sublist (List.take_sublist 3 _)).imp rankRel_imp_rankRelQ
  · intro c hc
    unfold duplicateDetection detectDuplicates at hc
    have h1 := List.take_subset 3 _ hc
    rw [List.mem_insertionSort] at h1
    have h2 := of_decide_eq_true ((List.mem_filter.mp h1).2)
    unfold duplicateThresholdH at h2
    have h3 : (70:ℚ) ≤ (c.score : ℚ) := by exact_mod_cast h2
    unfold duplicateThreshold ScoredCandidate.scoreQ
    linarith
  · intro l
    unfold sliceDuplicates
    exact List.length_take_le 3 l

/-- Witness for C3: the guarantees instantiated at the sample report and
sample store. -/
theorem duplicate_ranking_spec_witness :
    (duplicateDetection sampleReport sampleStore).length ≤ 3
    ∧ List.Pairwise rankRelQ (duplicateDetection sampleReport sampleStore)
    ∧ (∀ c ∈ duplicateDetection sampleReport sampleStore,
        duplicateThreshold ≤ c.scoreQ)
    ∧ ∀ l : List ScoredCandidate, (sliceDuplicates l).length ≤ 3 :=
  duplicate_ranking_spec sampleReport sampleStore

/-- Claim C4: the similarity score of every candidate against every report
lies in the closed interval [0,1]: the weighted combination is clipped. -/
theorem similarity_score_unit_interval (report : IssueReport) (t : TicketRecord) :
    0 ≤ scoreQ report t ∧ scoreQ report t ≤ 1 := by
  unfold scoreQ
  constructor
  · positivity
  · rw [div_le_one (by norm_num : (0:ℚ) < 100)]
    have h : similarityScoreH report t ≤ 100 := clipH_le _
    exact_mod_cast h

/-- Claim C5: duplicate scoring is monotone in each matching factor:
making the candidate's category match the report's hint, or making the
candidate's reporter the report's reporter, with everything else fixed,
never decreases the similarity score, and hence never removes the
candidate from the duplicate-candidate set. -/
theorem similarity_factor_monotone (report : IssueReport) (t : TicketRecord)
    (c : String) (hc : report.categoryHint = some c) :
    similarityScoreH report t ≤ similarityScoreH report { t with category := c }
    ∧ similarityScoreH report t
        ≤ similarityScoreH report { t with reporterId := report.reporterId }
    ∧ (IsDuplicateCandidate report t →
        IsDuplicateCandidate report { t with category := c })
    ∧ (IsDuplicateCandidate report t →
        IsDuplicateCandidate report { t with reporterId := report.reporterId }) := by
  have hcat : similarityScoreH report t
      ≤ similarityScoreH report { t with category := c } := by
    unfold similarityScoreH
    apply clipH_mono
    unfold rawScoreH factorsOf
    simp [hc]
    split_ifs <;> omega
  have hrep : similarityScoreH report t
      ≤ similarityScoreH report { t with reporterId := report.reporterId } := by
    unfold similarityScoreH
    apply clipH_mono
    unfold rawScoreH factorsOf
    simp
    split_ifs <;> omega
  refine ⟨hcat, hrep, ?_, ?_⟩
  · intro h
    exact le_trans h (scoreQ_mono hcat)
  · intro h
    exact le_trans h (scoreQ_mono hrep)

/-- Witness for C5: the monotonicity guarantees instantiated at the sample
report and a ticket mismatching it in category and reporter. -/
theorem similarity_factor_monotone_witness :
    sampleReport.categoryHint = some "Network"
    ∧ (similarityScoreH sampleReport mismatchTicket
          ≤ similarityScoreH sampleReport { mismatchTicket with category := "Network" }
      ∧ similarityScoreH sampleReport mismatchTicket
          ≤ similarityScoreH sampleReport
              { mismatchTicket with reporterId := sampleReport.reporterId }
      ∧ (IsDuplicateCandidate sampleReport mismatchTicket →
          IsDuplicateCandidate sampleReport
            { mismatchTicket with category := "Network" })
      ∧ (IsDuplicateCandidate sampleReport mismatchTicket →
          IsDuplicateCandidate sampleReport
            { mismatchTicket with reporterId := sampleReport.reporterId })) :=
  ⟨rfl, similarity_factor_monotone sampleReport mismatchTicket "Network" rfl⟩

/-- Claim C2: the PriorityClassifier assigns priority 4 to a Network issue
with no urgency marker, priority 3 after one urgency marker, each
escalation lowers the ordinal by exactly one floored at 1, and no marker
count ever drives the priority below 1. -/
theorem priority_classifier_rules :
    classifyPriority "Network" 0 = 4
    ∧ classifyPriority "Network" 1 = 3
    ∧ (∀ cat markers, 1 ≤ classifyPriority cat markers)
    ∧ ∀ cat markers,
        classifyPriority cat (markers + 1) = max 1 (classifyPriority cat markers - 1) := by
  refine ⟨by decide, by decide, ?_, ?_⟩
  · intro cat markers
    induction markers with
    | zero =>
      unfold classifyPriority baselinePriority
      split_ifs <;> omega
    | succ n ih =>
      exact le_max_left 1 _
  · intro cat markers
    rfl

/-- Claim C6: DuplicateDetector applied to an empty active-ticket set
returns an empty candidate list. -/
theorem empty_active_set_no_candidates (report : IssueReport) :
    detectDuplicates report [] = [] := rfl

/-- Claim C7: creating a ticket under a fresh idempotency key stores one
record, and a retry with the same key after a lost response hits the
store's `ConflictError`, which the orchestrator surfaces as success
carrying the existing record; the store ends with exactly one record for
that key. -/
theorem create_retry_idempotent (recs : List (String × TicketRecord)) (k : String)
    (draft : TicketRecord) (h : findByKey recs k = none) :
    orchestratorCreate recs k draft = ((k, draft) :: recs, draft)
    ∧ storeCreate ((k, draft) :: recs) k draft
        = ((k, draft) :: recs, CreateResult.conflict draft)
    ∧ orchestratorCreate ((k, draft) :: recs) k draft = ((k, draft) :: recs, draft)
    ∧ countKey ((k, draft) :: recs) k = 1 := by
  have hnone : recs.find? (fun p => p.1 == k) = none := by
    unfold findByKey at h
    cases hx : recs.find? (fun p => p.1 == k) with
    | none => rfl
    | some v => rw [hx] at h; simp at h
  refine ⟨?_, ?_, ?_, ?_⟩
  · simp [orchestratorCreate, storeCreate, h]
  · simp [storeCreate, findByKey]
  · simp [orchestratorCreate, storeCreate, findByKey]
  · unfold countKey
    rw [List.filter_cons_of_pos (by simp)]
    rw [List.filter_eq_nil_iff.mpr (List.find?_eq_none.mp hnone)]
    rfl

/-- Witness for C7: a lost-response retry against an initially empty store
leaves exactly one record under the key and returns it as success. -/
theorem create_retry_idempotent_witness :
    findByKey [] "retry-key" = none
    ∧ (orchestratorCreate [] "retry-key" sampleTicket
          = ([("retry-key", sampleTicket)], sampleTicket)
      ∧ storeCreate [("retry-key", sampleTicket)] "retry-key" sampleTicket
          = ([("retry-key", sampleTicket)], CreateResult.conflict sampleTicket)
      ∧ orchestratorCreate [("retry-key", sampleTicket)] "retry-key" sampleTicket
          = ([("retry-key", sampleTicket)], sampleTicket)
      ∧ countKey [("retry-key", sampleTicket)] "retry-key" = 1) :=
  ⟨rfl, create_retry_idempotent [] "retry-key" sampleTicket rfl⟩

/-- Claim C8: the IntentRouter never throws on classifier failure: when
the keyword pass is inconclusive and the external classifier fails, it
returns the intent `unknown` with confidence 0. -/
theorem intent_router_fallback
    (classify : String → SessionStage → Except String (Intent × ℚ))
    (text : String) (stage : SessionStage) (err : String)
    (hk : keywordIntent text = none) (hcl : classify text stage = Except.error err) :
    routeIntent classify text stage = (Intent.unknown, 0) := by
  unfold routeIntent
  rw [hk, hcl]

/-- Witness for C8: a message with no rule keywords routed through an
always-failing classifier yields `unknown` with confidence 0. -/
theorem intent_router_fallback_witness :
    (keywordIntent "wifi is broken" = none
      ∧ failingClassifier "wifi is broken" SessionStage.Start
          = Except.error "classifier unavailable")
    ∧ routeIntent failingClassifier "wifi is broken" SessionStage.Start
        = (Intent.unknown, 0) :=
  ⟨⟨by decide, rfl⟩,
    intent_router_fallback failingClassifier "wifi is broken" SessionStage.Start
      "classifier unavailable" (by decide) rfl⟩

/-- Claim C9: the frontend `ChatAPI.createTicket` request body always
carries the constant priority "3" and the constant category "general",
for every userId, title and description. -/
theorem frontend_create_ticket_constants (userId title description : String) :
    (createTicketBody userId title description).priority = "3"
    ∧ (createTicketBody userId title description).category = "general" :=
  ⟨rfl, rfl⟩

/-- Claim C10: the message-input submit handlers send nothing when the
trimmed input is empty or input is disabled: both `handleSubmit` and
`handleSend` return `none` in that case, for any combination of attached
callbacks. -/
theorem message_input_no_empty_send (message : String) (disabled : Bool)
    (h : strTrim message = "" ∨ disabled = true) :
    handleSubmit message disabled = none
    ∧ ∀ hasOnSendMessage hasOnSend : Bool,
        handleSend message disabled hasOnSendMessage hasOnSend = none := by
  rcases h with h | h
  · unfold handleSubmit handleSend
    rw [h]
    simp
  · subst h
    unfold handleSubmit handleSend
    simp

/-- Witness for C10: a whitespace-only message is never sent. -/
theorem message_input_no_empty_send_witness :
    (strTrim "   " = "" ∨ false = true)
    ∧ (handleSubmit "   " false = none
      ∧ ∀ hasOnSendMessage hasOnSend : Bool,
          handleSend "   " false hasOnSendMessage hasOnSend = none) :=
  ⟨Or.inl (by decide),
    message_input_no_empty_send "   " false (Or.inl (by decide))⟩

end Chatbot
